import Mathlib

/-!
Verification development for the cxgui repository.

Shallow embedding of the two applications the claims are about:
`vhsgui.pyw` (two-stage decode/export workflow sequencer plus JSON
configuration manager) and `cxcheck.pyw` (cxadc device prober and
per-device signal monitor worker).  External effects — starting a
subprocess, writing the configuration file, showing a message box,
appending to the log widget — are recorded as explicit actions
returned alongside the updated GUI state.  The filesystem is a
function from paths to existence booleans.
-/

namespace Cxgui

/-! ### Python string primitives -/

/-- Python `needle in hay` on strings: substring containment. -/
def pyIn (needle hay : String) : Bool := decide (needle.toList <:+: hay.toList)

/-- Python `str.lower()`. -/
def lowerStr (s : String) : String := String.mk (s.toList.map Char.toLower)

/-- Python `str.strip()`: drop leading and trailing whitespace. -/
def pyStrip (s : String) : String :=
  String.mk (((s.toList.dropWhile Char.isWhitespace).reverse.dropWhile Char.isWhitespace).reverse)

/-- Windows path separator test (`os.path` on an `nt` system accepts both). -/
def isSep (c : Char) : Bool := c = '/' || c = '\\'

/-- Characters of the basename: everything after the last separator. -/
def basenameL (cs : List Char) : List Char := (cs.reverse.takeWhile (fun c => !isSep c)).reverse

/-- `os.path.basename`. -/
def basename (s : String) : String := String.mk (basenameL s.toList)

/-- `os.path.dirname`: everything before the last separator, with the
trailing separators removed (drive/root corner cases are out of scope:
the workflow only applies this to plain file paths). -/
def dirname (s : String) : String :=
  let cs := s.toList
  let b := basenameL cs
  String.mk (((cs.take (cs.length - b.length)).reverse.dropWhile isSep).reverse)

/-- `os.path.join d f` for the shapes the workflow uses: empty directory
gives the name back, otherwise a separator is inserted unless one is
already present. -/
def joinPath (d f : String) : String :=
  if d = "" then f
  else match d.toList.getLast? with
    | some c => if isSep c then d ++ f else d ++ "\\" ++ f
    | none => f

/-! ### Configuration manager (`vhsgui.pyw`, class `ConfigManager`) -/

/-- A JSON-primitive value as stored in `vhsgui.json`. -/
inductive JVal
  | s (v : String)
  | n (v : Int)
  deriving DecidableEq

/-- A JSON object, as an insertion-ordered key/value list (Python dict). -/
abbrev JObj := List (String × JVal)

/-- The `defaults` dict of `ConfigManager.load_config`. -/
def defaults : JObj :=
  [("decode_path", JVal.s ""),
   ("tbc_export_path", JVal.s ""),
   ("last_input_file", JVal.s ""),
   ("window_width", JVal.n 900),
   ("window_height", JVal.n 750)]

/-- Python `data[key] = v`: replace in place if present, else append
(dict insertion order). -/
def setKey (cfg : JObj) (k : String) (v : JVal) : JObj :=
  if (cfg.lookup k).isSome then
    cfg.map (fun kv => if kv.1 = k then (k, v) else kv)
  else cfg ++ [(k, v)]

/-- The merging loop of `load_config`:
`for key in defaults: if key not in data: data[key] = defaults[key]`. -/
def mergeDefaults (data : JObj) : JObj :=
  defaults.foldl (fun d kv => if (d.lookup kv.1).isSome then d else d ++ [kv]) data

/-- A parsed JSON document as `json.load` can return it: a JSON object,
or a non-object document (represented by a JSON array of strings, the
shape that matters for the membership tests of the merge loop). -/
inductive JDoc
  | obj (o : JObj)
  | arr (elems : List String)
  deriving DecidableEq

/-- Outcome of `open(CONFIG_FILE, 'r')` followed by `json.load(f)`:
a parsed document; an exception of one of the two caught classes
(`json.JSONDecodeError`, `IOError`); or an exception outside them —
e.g. `UnicodeDecodeError` from reading undecodable bytes, which
subclasses `ValueError`, not `OSError`, so the except clause misses
it. -/
inductive ReadOutcome
  | doc (d : JDoc)
  | caughtErr
  | uncaughtErr
  deriving DecidableEq

/-- `ConfigManager.load_config`.  `fileExists` models
`os.path.exists(CONFIG_FILE)`.  The result is `none` when an exception
escapes to the caller: an uncaught read exception propagates directly,
and on a non-object document the merge loop's `data[key] = ...` raises
an uncaught `TypeError` at the first default key not already contained
in the document (if every default key is a member, the loop assigns
nothing and the non-object document itself is returned). -/
def load_config (fileExists : Bool) (outcome : ReadOutcome) : Option JDoc :=
  if fileExists = false then some (JDoc.obj defaults)
  else
    match outcome with
    | ReadOutcome.caughtErr => some (JDoc.obj defaults)
    | ReadOutcome.uncaughtErr => none
    | ReadOutcome.doc (JDoc.obj data) => some (JDoc.obj (mergeDefaults data))
    | ReadOutcome.doc (JDoc.arr elems) =>
      if defaults.all (fun kv => elems.contains kv.1) then some (JDoc.arr elems) else none

/-! ### Device prober (`cxcheck.pyw`, `detect_cxadc_devices`) -/

/-- `detect_cxadc_devices`: for each candidate index the probe's stderr
text is read, lowercased, and the index is appended exactly when the
marker `"no such file"` is absent.  The append loop over
`range(max_devices)` is a filter of the ascending range. -/
def detect_cxadc_devices (stderrOf : Nat → String) (max_devices : Nat := 8) : List Nat :=
  (List.range max_devices).filter (fun dev => !pyIn "no such file" (lowerStr (stderrOf dev)))

/-! ### Signal monitor line parsing (`cxcheck.pyw`, `DeviceMonitorWorker.run`) -/

/-- `SYNC_THRESHOLD = 60`. -/
def SYNC_THRESHOLD : ℚ := 60

/-- Character class `[0-9.]` of the capture group. -/
def isClassChar (c : Char) : Bool := c.isDigit || c = '.'

/-- Digit run to a natural number. -/
def natOfDigits (ds : List Char) : Nat := ds.foldl (fun n c => 10 * n + (c.toNat - 48)) 0

/-- Split a character list on `.` (Python `str.split('.')` shape). -/
def splitDots : List Char → List (List Char)
  | [] => [[]]
  | c :: rest =>
    let r := splitDots rest
    if c = '.' then [] :: r
    else
      match r with
      | [] => [[c]]
      | h :: t => (c :: h) :: t

/-- Python `float()` applied to a string drawn from `[0-9.]+`:
fails on more than one dot and on a bare `"."`; otherwise the exact
decimal value.  (The capture group admits only digits and dots, so the
other `float` syntax never arises.) -/
def pyFloat (cs : List Char) : Option ℚ :=
  match splitDots cs with
  | [ds] => if ds = [] then none else some ((natOfDigits ds : ℕ) : ℚ)
  | [ip, fp] =>
    if ip = [] && fp = [] then none
    else some (((natOfDigits (ip ++ fp) : ℕ) : ℚ) / ((10 : ℚ) ^ fp.length))
  | _ => none

/-- The literal part of the pattern `lavfi\.signalstats\.YMIN=([0-9\.]+)`. -/
def yminLit : List Char := "lavfi.signalstats.YMIN=".toList

/-- Try the pattern at the head of `cs`: the literal followed by a
nonempty maximal run of `[0-9.]`, returning the captured run. -/
def matchAt (cs : List Char) : Option (List Char) :=
  if yminLit.isPrefixOf cs then
    let cap := (cs.drop yminLit.length).takeWhile isClassChar
    if cap = [] then none else some cap
  else none

/-- `re.search`: first position where the whole pattern matches. -/
def searchYmin : List Char → Option (List Char)
  | [] => none
  | c :: rest =>
    match matchAt (c :: rest) with
    | some cap => some cap
    | none => searchYmin rest

/-- One iteration of the stderr loop of `DeviceMonitorWorker.run` on a
single line: the marker pre-check, the regex search, `float()` on the
capture, and the threshold classification.  `none` models `continue`
(no sample emitted); a emitted Signal Sample is the metric together
with `has_signal = ymin < SYNC_THRESHOLD`. -/
def processLine (line : String) : Option (ℚ × Bool) :=
  if !pyIn "lavfi.signalstats.YMIN" line then none
  else
    match searchYmin line.toList with
    | none => none
    | some cap =>
      match pyFloat cap with
      | none => none
      | some ymin => some (ymin, decide (ymin < SYNC_THRESHOLD))

/-! ### Monitor worker shutdown (`cxcheck.pyw`, `DeviceMonitorWorker.stop_process`) -/

/-- Worker state: the `is_running` flag and the optional subprocess
handle (identified by an opaque id). -/
structure Worker where
  is_running : Bool
  process : Option Nat
  deriving DecidableEq

/-- Termination actions issued against a subprocess. -/
inductive StopAct
  | terminate (p : Nat)
  | wait (p : Nat)
  | kill (p : Nat)
  deriving DecidableEq

/-- `DeviceMonitorWorker.stop_process`.  `graceful` tells whether
`wait(timeout=1)` succeeded; when it does not, the handler escalates to
`kill()` (whose own failure is swallowed, with the same resulting
state).  In every path the handle is cleared. -/
def stop_process (graceful : Bool) (w : Worker) : Worker × List StopAct :=
  let w1 : Worker := { w with is_running := false }
  match w1.process with
  | none => (w1, [])
  | some p =>
    ({ w1 with process := none },
     if graceful then [StopAct.terminate p, StopAct.wait p]
     else [StopAct.terminate p, StopAct.wait p, StopAct.kill p])

/-! ### Workflow GUI (`vhsgui.pyw`, class `VHSGui`) -/

/-- The value of `self.current_step` (the Python strings `"decode"` and
`"export"`; `export` is a Lean keyword, hence the `Stage` suffix). -/
inductive Step
  | decodeStage
  | exportStage
  deriving DecidableEq

/-- `self.current_step.upper()`. -/
def stepUpper : Step → String
  | Step.decodeStage => "DECODE"
  | Step.exportStage => "EXPORT"

/-- `QProcess.exitStatus()` outcomes. -/
inductive ExitStatus
  | NormalExit
  | CrashExit
  deriving DecidableEq

/-- `QProcess.state()` outcomes. -/
inductive ProcState
  | NotRunning
  | Starting
  | Running
  deriving DecidableEq

/-- The externally visible effects of the GUI methods. -/
inductive Action
  | clearLog
  | logText (s : String)
  | startProc (exe : String) (args : List String)
  | msgInfo (title text : String)
  | msgWarning (title text : String)
  | msgCritical (title text : String)
  | saveConfig (cfg : JObj)
  | killProc
  | fatalError
  deriving DecidableEq

/-- The `VHSGui` state the claims touch: the text-field and widget
contents, the in-memory configuration, the workflow bookkeeping
(`current_step`, `work_dir`) and the two buttons. -/
structure VHSGui where
  path_decode : String
  path_export : String
  input_file : String
  output_name : String
  combo_format : String
  combo_system : String
  spin_threads : Nat
  combo_freq : String
  check_recheck : Bool
  config : JObj
  current_step : Option Step
  work_dir : String
  btn_run_enabled : Bool
  btn_stop_enabled : Bool
  deriving DecidableEq

/-- `VHSGui.start_process`: the four precondition checks (on stripped
field values), then config update + save, working-directory and
argument-list construction, button flips, and the decode launch. -/
def start_process (fs : String → Bool) (g : VHSGui) : VHSGui × List Action :=
  let decode_exe := pyStrip g.path_decode
  let export_exe := pyStrip g.path_export
  let input_full_path := pyStrip g.input_file
  let output_base_name := pyStrip g.output_name
  if fs decode_exe = false then
    (g, [Action.msgCritical "Error" ("Decode executable not found:\n" ++ decode_exe)])
  else if fs export_exe = false then
    (g, [Action.msgCritical "Error" ("Export executable not found:\n" ++ export_exe)])
  else if fs input_full_path = false then
    (g, [Action.msgCritical "Error" ("Input file not found:\n" ++ input_full_path)])
  else if output_base_name = "" then
    (g, [Action.msgWarning "Error" "Please specify an output name."])
  else
    let config :=
      setKey (setKey (setKey g.config "decode_path" (JVal.s decode_exe))
          "tbc_export_path" (JVal.s export_exe))
        "last_input_file" (JVal.s input_full_path)
    let work_dir := dirname input_full_path
    let input_filename := basename input_full_path
    let output_arg := joinPath work_dir output_base_name
    let args :=
      ["vhs", "--tape_format", g.combo_format, "--system", g.combo_system,
       "--threads", toString g.spin_threads]
      ++ (if pyIn "28" g.combo_freq then ["--frequency", "28"]
          else if pyIn "40" g.combo_freq then ["--frequency", "40"] else [])
      ++ (if g.check_recheck then ["--recheck_phase"] else [])
      ++ [input_filename, output_arg]
    ({ g with
        config := config
        work_dir := work_dir
        current_step := some Step.decodeStage
        btn_run_enabled := false
        btn_stop_enabled := true },
     [Action.saveConfig config,
      Action.clearLog,
      Action.logText ("--- STARTING DECODE ---\nCommand: " ++ basename decode_exe ++ " "
        ++ String.intercalate " " args ++ "\n\n"),
      Action.startProc decode_exe args])

/-- `VHSGui.kill_process`: kill only when the process state is
`Running`, together with the user-stop log line. -/
def kill_process (ps : ProcState) : List Action :=
  if ps = ProcState.Running then
    [Action.killProc, Action.logText "\n\n!!! PROCESS STOPPED BY USER !!!\n"]
  else []

/-- `VHSGui.start_export`: sets the step to export, checks the
intermediate `.tbc` artifact on disk, and either halts re-enabling the
run button or launches the export executable. -/
def start_export (fs : String → Bool) (g0 : VHSGui) : VHSGui × List Action :=
  let g : VHSGui := { g0 with current_step := some Step.exportStage }
  let output_base_name := pyStrip g.output_name
  let export_exe := pyStrip g.path_export
  let tbc_filename := output_base_name ++ ".tbc"
  let export_filename := output_base_name ++ ".tbcexported.mkv"
  let full_tbc_path := joinPath g.work_dir tbc_filename
  if fs full_tbc_path = false then
    ({ g with btn_run_enabled := true },
     [Action.logText ("\nError: Could not find generated file: " ++ tbc_filename ++ "\n")])
  else
    ({ g with btn_stop_enabled := true },
     [Action.logText ("Command: " ++ basename export_exe ++ " \"" ++ tbc_filename ++ "\" \""
        ++ export_filename ++ "\"\n\n"),
      Action.startProc export_exe [tbc_filename, export_filename]])

/-- `VHSGui.process_finished`: disables the stop button; returns
silently on a crash exit (only re-enabling run); surfaces a nonzero
exit code in the log and halts; on a zero exit either chains into
`start_export` (decode step) or performs the authoritative final
artifact check (export step).  A nonzero exit with no current step
would raise inside the f-string (`None.upper()`), modelled as
`fatalError`. -/
def process_finished (fs : String → Bool) (st : ExitStatus) (code : Int) (g0 : VHSGui) :
    VHSGui × List Action :=
  let g : VHSGui := { g0 with btn_stop_enabled := false }
  if st = ExitStatus.CrashExit then
    ({ g with btn_run_enabled := true }, [])
  else if code ≠ 0 then
    match g.current_step with
    | none => (g, [Action.fatalError])
    | some s =>
      ({ g with btn_run_enabled := true },
       [Action.logText ("\n!!! " ++ stepUpper s ++ " FAILED (Exit Code " ++ toString code
          ++ ") !!!\n")])
  else
    match g.current_step with
    | some Step.decodeStage =>
      let r := start_export fs g
      (r.1, Action.logText "\n\n--- DECODE COMPLETE. STARTING EXPORT ---\n" :: r.2)
    | some Step.exportStage =>
      let output_base_name := pyStrip g.output_name
      let expected_mkv := joinPath g.work_dir (output_base_name ++ ".tbcexported.mkv")
      if fs expected_mkv = true then
        ({ g with btn_run_enabled := true, current_step := none },
         [Action.logText "\n\n--- ALL TASKS COMPLETED SUCCESSFULLY ---\n",
          Action.msgInfo "Success" "Workflow Finished!"])
      else
        ({ g with btn_run_enabled := true, current_step := none },
         [Action.logText ("\n\n!!! ERROR: Output file not found !!!\nExpected: " ++ expected_mkv
            ++ "\nCheck log for errors above."),
          Action.msgWarning "Export Failed"
            "The process finished, but the output .mkv file is missing."])
    | none => (g, [])

/-- `VHSGui.closeEvent`: store the live window geometry into the config
and flush it to disk. -/
def closeEvent (width height : Int) (g : VHSGui) : VHSGui × List Action :=
  let cfg := setKey (setKey g.config "window_width" (JVal.n width)) "window_height" (JVal.n height)
  ({ g with config := cfg }, [Action.saveConfig cfg])

/-! ### Observations over action lists -/

/-- Does an action start a subprocess? -/
def isStartProc : Action → Bool
  | Action.startProc _ _ => true
  | _ => false

/-- Does an action write the configuration file? -/
def isSaveConfig : Action → Bool
  | Action.saveConfig _ => true
  | _ => false

/-- Does an action surface an error dialog to the user? -/
def isErrorDialog : Action → Bool
  | Action.msgWarning _ _ => true
  | Action.msgCritical _ _ => true
  | _ => false

/-- Some subprocess launch occurs in the action list. -/
def anyStart (acts : List Action) : Bool := acts.any isStartProc

/-- Some configuration flush occurs in the action list. -/
def anySave (acts : List Action) : Bool := acts.any isSaveConfig

/-- Some error dialog occurs in the action list. -/
def anyErrorDialog (acts : List Action) : Bool := acts.any isErrorDialog

/-- The overall-success report of the workflow
(`QMessageBox.information(self, "Success", "Workflow Finished!")`). -/
def successReported (acts : List Action) : Bool :=
  acts.any (fun a => a = Action.msgInfo "Success" "Workflow Finished!")

/-- The missing-final-artifact failure report of the workflow. -/
def exportFailReported (acts : List Action) : Bool :=
  acts.any (fun a => a = Action.msgWarning "Export Failed"
    "The process finished, but the output .mkv file is missing.")

/-- The expected final artifact path `<work_dir>/<outputBase>.tbcexported.mkv`. -/
def expectedMkv (g : VHSGui) : String :=
  joinPath g.work_dir (pyStrip g.output_name ++ ".tbcexported.mkv")

/-- The expected intermediate artifact path `<work_dir>/<outputBase>.tbc`. -/
def expectedTbc (g : VHSGui) : String :=
  joinPath g.work_dir (pyStrip g.output_name ++ ".tbc")

end Cxgui

namespace Cxgui

/-! ### Helper lemmas about ordered key/value lookup -/

/-- Unfolding lemma for `List.lookup` on a cons cell. -/
theorem lookupCons (k : String) (a : String × JVal) (t : JObj) :
    (a :: t).lookup k = if k == a.1 then some a.2 else t.lookup k := by
  rcases a with ⟨x, v⟩
  by_cases h : k == x <;> simp [List.lookup, h]

/-- Lookup distributes over append, preferring the left list. -/
theorem lookupAppend (l₁ l₂ : JObj) (k : String) :
    (l₁ ++ l₂).lookup k = ((l₁.lookup k).orElse (fun _ => l₂.lookup k)) := by
  induction l₁ with
  | nil => cases h : l₂.lookup k <;> simp [List.lookup, Option.orElse, h]
  | cons a t ih =>
    rcases a with ⟨x, v⟩
    by_cases h : k == x <;> simp [List.lookup, h, ih, Option.orElse]

/-- The merging fold of `load_config` seen through lookup: on-disk
values win, folded-in defaults fill the gaps. -/
theorem foldlMergeLookup (ds : List (String × JVal)) (data : JObj) (k : String) :
    ((ds.foldl (fun d kv => if (d.lookup kv.1).isSome then d else d ++ [kv]) data).lookup k)
      = ((data.lookup k).orElse (fun _ => ds.lookup k)) := by
  induction ds generalizing data with
  | nil => cases h : data.lookup k <;> simp [Option.orElse, h]
  | cons d t ih =>
    rcases d with ⟨x, v⟩
    rw [List.foldl_cons, ih]
    by_cases hx : (data.lookup x).isSome
    · rw [if_pos hx]
      by_cases hk : k == x
      · have hkx : k = x := by simpa using hk
        subst hkx
        rcases Option.isSome_iff_exists.mp hx with ⟨val, hval⟩
        simp [hval, Option.orElse, lookupCons]
      · simp [lookupCons, hk]
    · rw [if_neg hx, lookupAppend]
      cases hd : data.lookup k
      · simp [Option.orElse, lookupCons, hd]
        by_cases hk : k = x <;> simp [hk]
      · simp [Option.orElse, hd]

end Cxgui

namespace Cxgui

/-- A concrete GUI state used to instantiate theorems with hypotheses. -/
def sampleGui : VHSGui :=
  { path_decode := "C:\\tools\\decode.exe"
    path_export := "C:\\tools\\tbc-video-export.exe"
    input_file := "C:\\cap\\tape1.u8"
    output_name := "tape1"
    combo_format := "vhs"
    combo_system := "pal"
    spin_threads := 8
    combo_freq := "Auto"
    check_recheck := true
    config := defaults
    current_step := none
    work_dir := "C:\\cap"
    btn_run_enabled := true
    btn_stop_enabled := false }

/-- C3: every Signal Sample the monitor emits is classified as signal
present if and only if the extracted metric is strictly below 60; in
particular a metric of exactly 60 classifies as no-signal. -/
theorem c3_signal_iff_below_threshold (line : String) (v : ℚ) (b : Bool)
    (h : processLine line = some (v, b)) : (b = true ↔ v < 60) := by
  unfold processLine at h
  cases hmark : pyIn "lavfi.signalstats.YMIN" line <;> rw [hmark] at h
  · simp at h
  · rw [if_neg (by simp)] at h
    cases hs : searchYmin line.toList with
    | none => rw [hs] at h; exact absurd h (by simp)
    | some cap =>
      rw [hs] at h
      dsimp only at h
      cases hf : pyFloat cap with
      | none => rw [hf] at h; exact absurd h (by simp)
      | some y =>
        rw [hf] at h
        simp only [Option.some_inj, Prod.mk.injEq] at h
        rcases h with ⟨hv, hb⟩
        subst hv
        subst hb
        simp [SYNC_THRESHOLD]

/-- C4 counterexample: the loader can raise to the caller on a parse or
read failure, instead of returning the all-defaults record.  A file
holding the valid non-object JSON document `[]` parses, and the merge
loop's first assignment raises an uncaught `TypeError`; an undecodable
file raises `UnicodeDecodeError`, which the
`except (json.JSONDecodeError, IOError)` clause does not catch.  Both
escape (`none`), refuting the claim's never-raises conjunct at these
concrete inputs. -/
theorem c4_cex_load_config_raises :
    load_config true (ReadOutcome.doc (JDoc.arr [])) = none
    ∧ load_config true ReadOutcome.uncaughtErr = none := ⟨rfl, rfl⟩

/-- C4 amended: loading a missing configuration file yields exactly the
five-key all-defaults record; a `json.JSONDecodeError` or `IOError`
also yields the all-defaults record without raising; loading a parsed
JSON object yields the union of the on-disk values and the missing
defaults, with on-disk values winning.  However the loader is not
exception-free: an exception outside the two caught classes (e.g.
`UnicodeDecodeError` from undecodable file bytes) propagates to the
caller, and a valid non-object JSON document makes the merge loop raise
an uncaught `TypeError` unless the document already contains every
default key as a member. -/
theorem c4_load_config_amended :
    (∀ outcome, load_config false outcome = some (JDoc.obj defaults))
    ∧ load_config true ReadOutcome.caughtErr = some (JDoc.obj defaults)
    ∧ (∀ data : JObj, load_config true (ReadOutcome.doc (JDoc.obj data))
        = some (JDoc.obj (mergeDefaults data)))
    ∧ (∀ (data : JObj) (k : String),
        (mergeDefaults data).lookup k
          = ((data.lookup k).orElse (fun _ => defaults.lookup k)))
    ∧ defaults.map Prod.fst
        = ["decode_path", "tbc_export_path", "last_input_file",
           "window_width", "window_height"]
    ∧ load_config true ReadOutcome.uncaughtErr = none
    ∧ (∀ elems, load_config true (ReadOutcome.doc (JDoc.arr elems))
        = if defaults.all (fun kv => elems.contains kv.1) then some (JDoc.arr elems)
          else none) := by
  refine ⟨fun _ => rfl, rfl, fun _ => rfl, ?_, rfl, rfl, fun _ => rfl⟩
  intro data k
  simpa [mergeDefaults] using foldlMergeLookup defaults data k

/-- C5: the device prober returns exactly the candidate indices below
`max_devices` whose (lowercased) probe stderr does not contain the
`"no such file"` marker, in strictly ascending order. -/
theorem c5_detect_membership_and_order (stderrOf : Nat → String) (N d : Nat) :
    (d ∈ detect_cxadc_devices stderrOf N
      ↔ d < N ∧ pyIn "no such file" (lowerStr (stderrOf d)) = false)
    ∧ (detect_cxadc_devices stderrOf N).Pairwise (· < ·) := by
  constructor
  · simp [detect_cxadc_devices, List.mem_filter, List.mem_range]
  · exact (List.pairwise_lt_range N).filter _

/-- C7: the worker's stop handler is idempotent — a second call in
succession performs no termination action and leaves the state produced
by the first call unchanged (the handle is cleared by the first call in
every path) — and the GUI kill handler is a no-op once the process is
no longer running. -/
theorem c7_stop_idempotent :
    (∀ (b1 b2 : Bool) (w : Worker),
        stop_process b2 (stop_process b1 w).1 = ((stop_process b1 w).1, []))
    ∧ kill_process ProcState.NotRunning = [] := by
  refine ⟨?_, rfl⟩
  intro b1 b2 w
  rcases w with ⟨ir, _ | p⟩ <;> cases b1 <;> rfl

end Cxgui

namespace Cxgui

/-- C1: in the export stage, overall success is reported if and only if
the export process exits normally with code 0 and the final artifact
`<outputBase>.tbcexported.mkv` exists in the working directory; when
the export exits 0 but the file is absent, the failure report is
issued instead. -/
theorem c1_overall_success_iff_artifact (fs : String → Bool) (st : ExitStatus) (code : Int)
    (g : VHSGui) :
    (successReported
        (process_finished fs st code { g with current_step := some Step.exportStage }).2 = true
      ↔ st = ExitStatus.NormalExit ∧ code = 0 ∧ fs (expectedMkv g) = true)
    ∧ (st = ExitStatus.NormalExit → code = 0 → fs (expectedMkv g) = false →
        exportFailReported
          (process_finished fs st code { g with current_step := some Step.exportStage }).2
          = true) := by
  cases st
  · by_cases hc : code = 0
    · cases hmk : fs (joinPath g.work_dir (pyStrip g.output_name ++ ".tbcexported.mkv")) <;>
        simp [process_finished, expectedMkv, successReported, exportFailReported, hc, hmk]
    · simp [process_finished, successReported, exportFailReported, hc, stepUpper]
  · simp [process_finished, successReported, exportFailReported]

/-- C1 witness: export exits 0 normally but no file exists anywhere, so
the missing-artifact failure is reported. -/
theorem c1_overall_success_iff_artifact_w :
    exportFailReported
      (process_finished (fun _ => false) ExitStatus.NormalExit 0
        { sampleGui with current_step := some Step.exportStage }).2 = true :=
  (c1_overall_success_iff_artifact (fun _ => false) ExitStatus.NormalExit 0 sampleGui).2
    rfl rfl rfl

/-- C2: from the decode stage, a subprocess launch (the export stage)
can only follow a normal decode exit with code exactly 0; a crash exit
or a nonzero code yields no launch and re-enables the run button, with
no retry. -/
theorem c2_export_only_after_decode_zero (fs : String → Bool) (st : ExitStatus) (code : Int)
    (g : VHSGui) :
    (anyStart
        (process_finished fs st code { g with current_step := some Step.decodeStage }).2 = true
      → st = ExitStatus.NormalExit ∧ code = 0)
    ∧ ((st = ExitStatus.CrashExit ∨ code ≠ 0) →
        anyStart
          (process_finished fs st code { g with current_step := some Step.decodeStage }).2 = false
        ∧ (process_finished fs st code
            { g with current_step := some Step.decodeStage }).1.btn_run_enabled = true) := by
  cases st
  · by_cases hc : code = 0
    · subst hc
      cases hmk : fs (joinPath g.work_dir (pyStrip g.output_name ++ ".tbc")) <;>
        simp [process_finished, start_export, anyStart, isStartProc, hmk]
    · simp [process_finished, anyStart, isStartProc, hc, stepUpper]
  · simp [process_finished, anyStart, isStartProc]

/-- C2 witness: a crashed decode stage launches nothing and re-enables
the run button. -/
theorem c2_export_only_after_decode_zero_w :
    anyStart
      (process_finished (fun _ => false) ExitStatus.CrashExit 3
        { sampleGui with current_step := some Step.decodeStage }).2 = false
    ∧ (process_finished (fun _ => false) ExitStatus.CrashExit 3
        { sampleGui with current_step := some Step.decodeStage }).1.btn_run_enabled = true :=
  (c2_export_only_after_decode_zero (fun _ => false) ExitStatus.CrashExit 3 sampleGui).2
    (Or.inl rfl)

end Cxgui

namespace Cxgui

/-- C6: when any precondition of the run request fails — a missing
decode executable, export executable or input file, or an empty output
base name — an error dialog is surfaced and nothing else happens: the
GUI state (configuration, workflow step, buttons, fields) is unchanged,
no subprocess is started and no configuration is written to disk. -/
theorem c6_precondition_failure_no_state_change (fs : String → Bool) (g : VHSGui)
    (h : fs (pyStrip g.path_decode) = false ∨ fs (pyStrip g.path_export) = false
       ∨ fs (pyStrip g.input_file) = false ∨ pyStrip g.output_name = "") :
    (start_process fs g).1 = g
    ∧ anyStart (start_process fs g).2 = false
    ∧ anySave (start_process fs g).2 = false
    ∧ anyErrorDialog (start_process fs g).2 = true := by
  unfold start_process
  cases h1 : fs (pyStrip g.path_decode)
  · simp [h1, anyStart, anySave, anyErrorDialog, isStartProc, isSaveConfig, isErrorDialog]
  · cases h2 : fs (pyStrip g.path_export)
    · simp [h1, h2, anyStart, anySave, anyErrorDialog, isStartProc, isSaveConfig, isErrorDialog]
    · cases h3 : fs (pyStrip g.input_file)
      · simp [h1, h2, h3, anyStart, anySave, anyErrorDialog, isStartProc, isSaveConfig,
          isErrorDialog]
      · by_cases h4 : pyStrip g.output_name = ""
        · simp [h1, h2, h3, h4, anyStart, anySave, anyErrorDialog, isStartProc, isSaveConfig,
            isErrorDialog]
        · rcases h with h | h | h | h <;> simp_all

/-- C6 witness: with an all-absent filesystem the run request changes
nothing and surfaces an error dialog. -/
theorem c6_precondition_failure_no_state_change_w :
    (start_process (fun _ => false) sampleGui).1 = sampleGui
    ∧ anyStart (start_process (fun _ => false) sampleGui).2 = false
    ∧ anySave (start_process (fun _ => false) sampleGui).2 = false
    ∧ anyErrorDialog (start_process (fun _ => false) sampleGui).2 = true :=
  c6_precondition_failure_no_state_change (fun _ => false) sampleGui (Or.inl rfl)

/-- C8 counterexample: a decode stage that terminates abnormally (crash
exit) produces no action at all — in particular no failure message and
no exit code is surfaced to the user, contradicting the claim that
every abnormal stage exit is surfaced together with its exit code. -/
theorem c8_cex_crash_surfaces_nothing :
    (process_finished (fun _ => false) ExitStatus.CrashExit 9
      { sampleGui with current_step := some Step.decodeStage }).2 = [] := rfl

/-- C8 amended: on a nonzero normal stage exit the sequence halts with
no retry and the failure is surfaced in the log together with the exit
code; on an abnormal (crash) exit the sequence also halts with no
retry, but silently — no message and no exit code is shown (only the
buttons are reset). -/
theorem c8_stage_failure_halts_amended (fs : String → Bool) (code : Int) (g : VHSGui)
    (s : Step) :
    (code ≠ 0 →
      process_finished fs ExitStatus.NormalExit code { g with current_step := some s }
        = ({ g with current_step := some s, btn_stop_enabled := false, btn_run_enabled := true },
           [Action.logText ("\n!!! " ++ stepUpper s ++ " FAILED (Exit Code " ++ toString code
              ++ ") !!!\n")]))
    ∧ process_finished fs ExitStatus.CrashExit code { g with current_step := some s }
        = ({ g with current_step := some s, btn_stop_enabled := false, btn_run_enabled := true },
           []) := by
  constructor
  · intro hc
    simp [process_finished, hc]
  · simp [process_finished]

/-- C8 amended witness: a decode exit with code 2 is surfaced in the
log with that exit code. -/
theorem c8_stage_failure_halts_amended_w :
    process_finished (fun _ => false) ExitStatus.NormalExit 2
        { sampleGui with current_step := some Step.decodeStage }
      = ({ sampleGui with
            current_step := some Step.decodeStage
            btn_stop_enabled := false
            btn_run_enabled := true },
         [Action.logText ("\n!!! " ++ stepUpper Step.decodeStage ++ " FAILED (Exit Code "
            ++ toString (2 : Int) ++ ") !!!\n")]) :=
  (c8_stage_failure_halts_amended (fun _ => false) 2 sampleGui Step.decodeStage).1 (by decide)

/-- C9 counterexample: an accepted run request (all preconditions
satisfied) flushes the configuration to disk from `start_process`,
which is not the window-close handler — contradicting the claim that
the configuration is written only during controlled shutdown. -/
theorem c9_cex_run_request_flushes_config :
    anySave (start_process (fun _ => true) sampleGui).2 = true := rfl

/-- C9 amended: the configuration is flushed to disk during controlled
shutdown (the window-close handler always saves it) and additionally on
every run request that passes precondition validation — exactly when
the four preconditions hold; no other workflow operation (stage
completion, export start, user stop) writes it. -/
theorem c9_save_points_amended :
    (∀ (w h : Int) (g : VHSGui),
        (closeEvent w h g).2 = [Action.saveConfig (closeEvent w h g).1.config])
    ∧ (∀ (fs : String → Bool) (g : VHSGui),
        anySave (start_process fs g).2
          = (fs (pyStrip g.path_decode) && fs (pyStrip g.path_export)
             && fs (pyStrip g.input_file) && !(pyStrip g.output_name == "")))
    ∧ (∀ (fs : String → Bool) (st : ExitStatus) (code : Int) (g : VHSGui),
        anySave (process_finished fs st code g).2 = false)
    ∧ (∀ (fs : String → Bool) (g : VHSGui), anySave (start_export fs g).2 = false)
    ∧ (∀ ps, anySave (kill_process ps) = false) := by
  have hexp : ∀ (fs : String → Bool) (g : VHSGui), anySave (start_export fs g).2 = false := by
    intro fs g
    unfold start_export
    cases hf : fs (joinPath g.work_dir (pyStrip g.output_name ++ ".tbc")) <;>
      simp [hf, anySave, isSaveConfig]
  refine ⟨fun _ _ _ => rfl, ?_, ?_, hexp, ?_⟩
  · intro fs g
    unfold start_process
    cases h1 : fs (pyStrip g.path_decode)
    · simp [h1, anySave, isSaveConfig]
    · cases h2 : fs (pyStrip g.path_export)
      · simp [h1, h2, anySave, isSaveConfig]
      · cases h3 : fs (pyStrip g.input_file)
        · simp [h1, h2, h3, anySave, isSaveConfig]
        · by_cases h4 : pyStrip g.output_name = "" <;>
            simp [h1, h2, h3, h4, anySave, isSaveConfig]
  · intro fs st code g
    cases st
    · by_cases hc : code = 0
      · cases hstep : g.current_step with
        | none => simp [process_finished, hstep, hc, anySave, isSaveConfig]
        | some s =>
          cases s
          · have := hexp fs { g with btn_stop_enabled := false }
            cases hf : fs (joinPath g.work_dir (pyStrip g.output_name ++ ".tbc")) <;>
              simp [process_finished, start_export, hstep, hc, hf, anySave, isSaveConfig]
          · cases hmk : fs (joinPath g.work_dir (pyStrip g.output_name ++ ".tbcexported.mkv")) <;>
              simp [process_finished, hstep, hc, hmk, anySave, isSaveConfig]
      · cases hstep : g.current_step <;>
          simp [process_finished, hstep, hc, anySave, isSaveConfig]
    · simp [process_finished, anySave, isSaveConfig]
  · intro ps
    cases ps <;> simp [kill_process, anySave, isSaveConfig]

/-- C10: when the decode stage exits normally with code 0 but the
intermediate artifact `<outputBase>.tbc` is absent from the working
directory, the export process is never started, the missing-file error
is logged, and the run button is re-enabled (the workflow halts). -/
theorem c10_missing_tbc_halts (fs : String → Bool) (g : VHSGui)
    (h : fs (joinPath g.work_dir (pyStrip g.output_name ++ ".tbc")) = false) :
    anyStart (process_finished fs ExitStatus.NormalExit 0
        { g with current_step := some Step.decodeStage }).2 = false
    ∧ (process_finished fs ExitStatus.NormalExit 0
        { g with current_step := some Step.decodeStage }).1.btn_run_enabled = true
    ∧ Action.logText ("\nError: Could not find generated file: "
        ++ (pyStrip g.output_name ++ ".tbc") ++ "\n")
      ∈ (process_finished fs ExitStatus.NormalExit 0
          { g with current_step := some Step.decodeStage }).2 := by
  simp [process_finished, start_export, h, anyStart, isStartProc]

/-- C10 witness: on an empty filesystem the decode-complete transition
halts without starting the export process and logs the missing `.tbc`
error. -/
theorem c10_missing_tbc_halts_w :
    anyStart (process_finished (fun _ => false) ExitStatus.NormalExit 0
        { sampleGui with current_step := some Step.decodeStage }).2 = false
    ∧ (process_finished (fun _ => false) ExitStatus.NormalExit 0
        { sampleGui with current_step := some Step.decodeStage }).1.btn_run_enabled = true
    ∧ Action.logText ("\nError: Could not find generated file: "
        ++ (pyStrip sampleGui.output_name ++ ".tbc") ++ "\n")
      ∈ (process_finished (fun _ => false) ExitStatus.NormalExit 0
          { sampleGui with current_step := some Step.decodeStage }).2 :=
  c10_missing_tbc_halts (fun _ => false) sampleGui rfl

end Cxgui

namespace Cxgui

/-- C3 witness: the boundary line `lavfi.signalstats.YMIN=60` yields a
sample with metric exactly 60 classified as no-signal, and the theorem
applied there gives the (false) iff at the boundary. -/
theorem c3_signal_iff_below_threshold_w : (false = true ↔ (60 : ℚ) < 60) :=
  c3_signal_iff_below_threshold "lavfi.signalstats.YMIN=60" 60 false (by decide)

end Cxgui
